import Mathlib

/-!
Verification of `ally2ledger.py`, a script that converts an Ally Bank CSV
export to a Ledger CLI compatible data file.

The embedding works at the level of parsed CSV rows: an input file is a list
of rows, each row a list of string fields (the result of `csv.reader` with
`csv.unix_dialect`).  The Python dictionaries produced by `csv.DictReader`
become the structure `Record`; the text written by `csv.DictWriter` with
`csv.unix_dialect` (quoting policy QUOTE_ALL, quote character `"`,
doublequote escaping, line terminator a newline) is modelled by
`write_output_csv`, which returns the list of lines of the temporary file.
The straight-line `main` pipeline, whose only effects are opening files,
writing the temporary file, running the external `ledger` process and
writing the destination file, is modelled as a function over an explicit
`World` state; Python exceptions become `Except` errors that propagate (no
`try`/`except` exists anywhere in the script).
-/

/-- A transaction record as produced by `csv.DictReader` with fieldnames
`["date", "time", "amount", "type", "description"]`.  `DictReader` pads a
short row with the default `restval` (Python `None`, here `Option.none`) and
collects the extra values of a long row under the default `restkey`
(modelled by the list `rest`). -/
structure Record where
  date : Option String
  time : Option String
  amount : Option String
  type : Option String
  description : Option String
  rest : List String
deriving Repr, DecidableEq

/-- One step of `csv.DictReader`: zip the five fieldnames with the row's
values; fieldnames beyond the row's length get `None` (`restval`), values
beyond the fifth are collected under the `restkey`. -/
def dictReaderRow (row : List String) : Record :=
  { date := row[0]?
    time := row[1]?
    amount := row[2]?
    type := row[3]?
    description := row[4]?
    rest := row.drop 5 }

/-- Embedding of `read_input_csv` (src/ally2ledger.py lines 37-66), applied
to the parsed rows of the input file.  `csv.DictReader.__next__` skips rows
that parse to the empty list, the loop body skips the first yielded row
(`idx` 0, assumed to be the header) and appends the rest, and the collected
list is reversed before being returned. -/
def read_input_csv (rows : List (List String)) : List Record :=
  ((((rows.filter (fun r => !r.isEmpty)).drop 1).map dictReaderRow).reverse)

/-- Doublequote escaping of `csv.unix_dialect`: each `"` inside a field is
written as `""`. -/
def escapeQuotes : List Char → List Char
  | [] => []
  | c :: cs => if c = '"' then '"' :: '"' :: escapeQuotes cs else c :: escapeQuotes cs

/-- Serialization of one field under `csv.unix_dialect`, whose quoting policy
is QUOTE_ALL: every field is enclosed in `"` quotes, with inner quotes
doubled. -/
def quoteField (s : String) : String :=
  String.mk ('"' :: (escapeQuotes s.data ++ ['"']))

/-- The `csv` writer converts Python `None` to the empty string before
quoting; any other string value is written verbatim. -/
def fieldStr : Option String → String
  | none => ""
  | some s => s

/-- One line written by `csv.DictWriter` under `csv.unix_dialect`: every
field quoted, fields joined by commas.  (The terminating newline of each
line is left implicit; we model the file as its list of lines.) -/
def serializeRow (fields : List String) : String :=
  String.intercalate "," (fields.map quoteField)

/-- The fieldnames of the `csv.DictWriter` in `write_output_csv`. -/
def output_fieldnames : List String :=
  ["amount", "date", "description", "note"]

/-- The dict literal passed to `writerow` in `write_output_csv`
(src/ally2ledger.py lines 94-99), read back in the writer's fieldname order
`amount, date, description, note`: `note` receives the record's `type` value
and the record's `time` value is not used. -/
def outputRow (row : Record) : List (Option String) :=
  [row.amount, row.date, row.description, row.type]

/-- Embedding of `write_output_csv` (src/ally2ledger.py lines 69-101): the
lines of the temporary CSV file, a header row written by `writeheader`
followed by one serialized `outputRow` per transaction, in order. -/
def write_output_csv (transactions : List Record) : List String :=
  serializeRow output_fieldnames ::
    transactions.map (fun row => serializeRow ((outputRow row).map fieldStr))

/-- The command string built in `convert_csv` (src/ally2ledger.py lines
114-118).  The f-string concatenation yields a single string; note that the
date format is surrounded by literal `"` characters (no shell ever removes
them, since `subprocess.run` is given an argument list) and that the string
ends in a space. -/
def convert_cmd (input_csv account : String) : String :=
  "ledger convert " ++ input_csv ++
    " --input-date-format \"%Y-%m-%d\" --account " ++ account ++ " "

/-- Python `str.split(' ')` with an explicit separator: split at every
occurrence of the separator, keeping empty chunks (so a trailing separator
produces a trailing empty string). -/
def splitSpaces : List Char → List (List Char)
  | [] => [[]]
  | c :: cs =>
    if c = ' ' then [] :: splitSpaces cs
    else
      match splitSpaces cs with
      | [] => [[c]]
      | r :: rs => (c :: r) :: rs

/-- The argument vector `cmd.split(' ')` handed to `subprocess.run` in
`convert_csv` (src/ally2ledger.py line 119). -/
def convert_argv (input_csv account : String) : List String :=
  (splitSpaces (convert_cmd input_csv account).data).map String.mk

/-- The errors that can abort a run: a filesystem error opening the input
file, a filesystem error creating the temporary file, a
`subprocess.CalledProcessError` carrying the nonzero exit code (raised by
`subprocess.run` because `check=True`), and a filesystem error opening the
destination file. -/
inductive Err
  | fsInput
  | fsTemp
  | procFail (code : Nat)
  | fsOutput
deriving Repr, DecidableEq

/-- The world `main` acts on.  `inputFile` is the parsed row list of the
input CSV (`none` when the path cannot be opened); `ledger` gives the
external process's behaviour on an argument vector, `Except.ok` being the
captured standard output on exit status zero and `Except.error` a nonzero
exit code; `tempPath` is the unique name `tempfile.NamedTemporaryFile`
chooses; `tempFile` and `outputFile` hold the contents written so far (the
temporary file's lines, the destination file's bytes); `ledgerCalls`
records every invocation of the external process. -/
structure World where
  inputFile : Option (List (List String))
  tempWritable : Bool
  tempPath : String
  ledger : List String → Except Nat String
  outputWritable : Bool
  tempFile : Option (List String)
  outputFile : Option String
  ledgerCalls : List (List String)

/-- Embedding of `main` (src/ally2ledger.py lines 124-137): read the input,
write the temporary file, run the external process, then open the
destination and write the captured bytes.  There is no `try`/`except`, so
the first failing stage stops the run with its error and no later stage
executes. -/
def mainRun (w : World) (account : String) : World × Except Err Unit :=
  match w.inputFile with
  | none => (w, Except.error Err.fsInput)
  | some rows =>
    let transactions := read_input_csv rows
    if w.tempWritable then
      let w1 : World := { w with tempFile := some (write_output_csv transactions) }
      let w2 : World := { w1 with ledgerCalls := w1.ledgerCalls ++ [convert_argv w.tempPath account] }
      match w.ledger (convert_argv w.tempPath account) with
      | Except.error code => (w2, Except.error (Err.procFail code))
      | Except.ok out =>
        if w.outputWritable then
          ({ w2 with outputFile := some out }, Except.ok ())
        else
          (w2, Except.error Err.fsOutput)
    else
      (w, Except.error Err.fsTemp)

/-! Theorems about the field mapping and the serialized temporary file. -/

/-- C1: for every Transaction Record consumed by the Output Writer, the
written Output Row's `amount`, `date` and `description` fields equal the
record's `amount`, `date` and `description` fields, the `note` field equals
the record's `type` field, and the record's `time` field appears nowhere in
the output: the Output Row is invariant under any change of `time`. -/
theorem c1_field_mapping (r : Record) :
    outputRow r = [r.amount, r.date, r.description, r.type] ∧
    (∀ t, outputRow { r with time := t } = outputRow r) :=
  ⟨rfl, fun _ => rfl⟩

/-- C10: every line the Output Writer serializes is the comma-join of its
fields passed through `quoteField`, and `quoteField` encloses every field
(header names and data values alike) in double quotes: the temporary file is
fully-quoted CSV, as `csv.unix_dialect`'s QUOTE_ALL policy dictates. -/
theorem c10_every_field_quoted :
    (∀ transactions, write_output_csv transactions =
      (output_fieldnames :: transactions.map (fun r => (outputRow r).map fieldStr)).map
        (fun fields => String.intercalate "," (fields.map quoteField))) ∧
    (∀ s, (quoteField s).data.head? = some '"' ∧ (quoteField s).data.getLast? = some '"') := by
  constructor
  · intro transactions
    simp [write_output_csv, serializeRow]
  · intro s
    refine ⟨rfl, ?_⟩
    exact List.getLast?_concat ('"' :: escapeQuotes s.data)

/-- C3 counterexample: an input whose single data row has only four fields
does not make the Input Reader fail; `csv.DictReader` pads the missing
`description` with `None` and a record for that row is produced. -/
theorem c3_counterexample :
    read_input_csv
        [["date", "time", "amount", "type", "description"],
         ["2024-01-02", "10:00", "-50.00", "Withdrawal"]]
      = [{ date := some "2024-01-02", time := some "10:00", amount := some "-50.00",
           type := some "Withdrawal", description := none, rest := [] }] := by
  decide

/-- C3 amended: a data row that does not split into exactly five fields
causes no parse error; the Input Reader still produces a record for it
(short rows padded with `None`, the extra fields of long rows collected
under the rest key), and the run continues. -/
theorem c3_amended_no_parse_error (header r : List String)
    (hh : header ≠ []) (hr : r ≠ []) (hlen : r.length ≠ 5) :
    read_input_csv [header, r] = [dictReaderRow r] := by
  have hh2 : (!header.isEmpty) = true := by
    cases header with
    | nil => exact absurd rfl hh
    | cons a l => rfl
  have hr2 : (!r.isEmpty) = true := by
    cases r with
    | nil => exact absurd rfl hr
    | cons a l => rfl
  simp [read_input_csv, List.filter_cons, hh2, hr2]

/-- C3 amended, witness: the header plus a four-field row instantiate the
amended statement. -/
theorem c3_amended_witness :
    (["2024-01-02", "10:00", "-50.00", "Withdrawal"] : List String).length ≠ 5 ∧
    read_input_csv
        [["date", "time", "amount", "type", "description"],
         ["2024-01-02", "10:00", "-50.00", "Withdrawal"]]
      = [dictReaderRow ["2024-01-02", "10:00", "-50.00", "Withdrawal"]] :=
  ⟨by decide,
   c3_amended_no_parse_error
     ["date", "time", "amount", "type", "description"]
     ["2024-01-02", "10:00", "-50.00", "Withdrawal"]
     (by decide) (by decide) (by decide)⟩

/-- C5 counterexample: for the header-then-single-data-row input of the
scenario, the line after the header of the temporary CSV is not the bare
text `-50.00,2024-01-02,ATM,Withdrawal`: QUOTE_ALL quotes every field. -/
theorem c5_counterexample :
    (write_output_csv (read_input_csv
        [["date", "time", "amount", "type", "description"],
         ["2024-01-02", "10:00", "-50.00", "Withdrawal", "ATM"]]))[1]?
      ≠ some "-50.00,2024-01-02,ATM,Withdrawal" := by
  decide

/-- C5 amended: for that same input the temporary CSV is the quoted header
line followed by the quoted body line
`"-50.00","2024-01-02","ATM","Withdrawal"`. -/
theorem c5_amended_quoted_body :
    write_output_csv (read_input_csv
        [["date", "time", "amount", "type", "description"],
         ["2024-01-02", "10:00", "-50.00", "Withdrawal", "ATM"]])
      = ["\"amount\",\"date\",\"description\",\"note\"",
         "\"-50.00\",\"2024-01-02\",\"ATM\",\"Withdrawal\""] := by
  decide

/-- C2: for an input file made of a header row followed by N nonempty data
rows, N at least 1, the Output Writer produces exactly N data rows (the
header line excluded), and the sequence of output data lines is the
end-to-end reverse of the input's data-row order. -/
theorem c2_reverse_order (header : List String) (dataRows : List (List String))
    (hh : header ≠ []) (hd : ∀ r, r ∈ dataRows → r ≠ []) (_hn : 1 ≤ dataRows.length) :
    ((write_output_csv (read_input_csv (header :: dataRows))).drop 1).length
        = dataRows.length ∧
    (write_output_csv (read_input_csv (header :: dataRows))).drop 1
      = (dataRows.map
          (fun r => serializeRow ((outputRow (dictReaderRow r)).map fieldStr))).reverse := by
  have hh2 : (!header.isEmpty) = true := by
    cases header with
    | nil => exact absurd rfl hh
    | cons a l => rfl
  have hfil : dataRows.filter (fun r => !r.isEmpty) = dataRows := by
    refine List.filter_eq_self.mpr ?_
    intro r hr
    cases hcase : r with
    | nil => exact absurd hcase (hd r hr)
    | cons a l => rfl
  have hread : read_input_csv (header :: dataRows) = (dataRows.map dictReaderRow).reverse := by
    simp [read_input_csv, List.filter_cons, hh2, hfil]
  rw [hread]
  constructor
  · simp [write_output_csv]
  · simp [write_output_csv, List.map_reverse]

/-- C2 witness: a header and two concrete data rows instantiate the
statement. -/
theorem c2_witness :
    1 ≤ ([["d1", "t1", "a1", "ty1", "de1"], ["d2", "t2", "a2", "ty2", "de2"]]
          : List (List String)).length ∧
    (((write_output_csv (read_input_csv
        ([["date", "time", "amount", "type", "description"],
          ["d1", "t1", "a1", "ty1", "de1"],
          ["d2", "t2", "a2", "ty2", "de2"]]))).drop 1).length
        = ([["d1", "t1", "a1", "ty1", "de1"], ["d2", "t2", "a2", "ty2", "de2"]]
            : List (List String)).length ∧
    (write_output_csv (read_input_csv
        ([["date", "time", "amount", "type", "description"],
          ["d1", "t1", "a1", "ty1", "de1"],
          ["d2", "t2", "a2", "ty2", "de2"]]))).drop 1
      = ([["d1", "t1", "a1", "ty1", "de1"], ["d2", "t2", "a2", "ty2", "de2"]].map
          (fun r => serializeRow ((outputRow (dictReaderRow r)).map fieldStr))).reverse) :=
  ⟨by decide,
   c2_reverse_order ["date", "time", "amount", "type", "description"]
     [["d1", "t1", "a1", "ty1", "de1"], ["d2", "t2", "a2", "ty2", "de2"]]
     (by decide) (by decide) (by decide)⟩

/-! Lemmas about the whitespace tokenization performed by `cmd.split(' ')`. -/

lemma splitSpaces_ne_nil (cs : List Char) : splitSpaces cs ≠ [] := by
  induction cs with
  | nil => simp [splitSpaces]
  | cons c cs ih =>
    by_cases hc : c = ' '
    · simp [splitSpaces, hc]
    · cases hsp : splitSpaces cs with
      | nil => exact absurd hsp ih
      | cons r rs => simp [splitSpaces, hc, hsp]

lemma splitSpaces_sep (xs ys : List Char) (h : ' ' ∉ xs) :
    splitSpaces (xs ++ ' ' :: ys) = xs :: splitSpaces ys := by
  induction xs with
  | nil => simp [splitSpaces]
  | cons x xs ih =>
    have hx : ¬(x = ' ') := fun hx => h (hx ▸ List.mem_cons_self x xs)
    have h2 : ' ' ∉ xs := fun hm => h (List.mem_cons_of_mem x hm)
    rw [List.cons_append]
    simp only [splitSpaces, hx, if_false, ih h2]

lemma splitSpaces_trailing (xs : List Char) :
    splitSpaces (xs ++ [' ']) = splitSpaces xs ++ [[]] := by
  induction xs with
  | nil => simp [splitSpaces]
  | cons x xs ih =>
    by_cases hx : x = ' '
    · simp [splitSpaces, hx, ih]
    · cases hsp : splitSpaces xs with
      | nil => exact absurd hsp (splitSpaces_ne_nil xs)
      | cons r rs => simp [splitSpaces, hx, ih, hsp]

lemma splitSpaces_length_ge_two (xs : List Char) (h : ' ' ∈ xs) :
    2 ≤ (splitSpaces xs).length := by
  induction xs with
  | nil => cases h
  | cons x xs ih =>
    by_cases hx : x = ' '
    · have h1 : splitSpaces xs ≠ [] := splitSpaces_ne_nil xs
      have h2 : 1 ≤ (splitSpaces xs).length := List.length_pos.mpr h1
      simp only [splitSpaces, hx, if_true, List.length_cons]
      omega
    · have hmem : ' ' ∈ xs := by
        cases List.mem_cons.mp h with
        | inl heq => exact absurd heq.symm hx
        | inr hm => exact hm
      cases hsp : splitSpaces xs with
      | nil => exact absurd hsp (splitSpaces_ne_nil xs)
      | cons r rs =>
        have h2 : 2 ≤ rs.length + 1 := by simpa [hsp] using ih hmem
        simp only [splitSpaces, hx, if_false, hsp, List.length_cons]
        omega

/-- The argument vector built by `convert_csv` for a space-free path: the
six fixed leading tokens (the date format keeps the literal quotes written
into the f-string), followed by whatever the account portion plus the
trailing space of the command string tokenize to. -/
lemma convert_argv_eq (p a : String) (hp : ' ' ∉ p.data) :
    convert_argv p a
      = ["ledger", "convert", p, "--input-date-format", "\"%Y-%m-%d\"", "--account"]
        ++ (splitSpaces (a.data ++ [' '])).map String.mk := by
  obtain ⟨pd⟩ := p
  obtain ⟨ad⟩ := a
  show (splitSpaces (convert_cmd (String.mk pd) (String.mk ad)).data).map String.mk = _
  have hdata : (convert_cmd (String.mk pd) (String.mk ad)).data
      = ['l', 'e', 'd', 'g', 'e', 'r'] ++ ' ' ::
          (['c', 'o', 'n', 'v', 'e', 'r', 't'] ++ ' ' ::
            (pd ++ ' ' ::
              (['-', '-', 'i', 'n', 'p', 'u', 't', '-', 'd', 'a', 't', 'e', '-',
                'f', 'o', 'r', 'm', 'a', 't'] ++ ' ' ::
                (['"', '%', 'Y', '-', '%', 'm', '-', '%', 'd', '"'] ++ ' ' ::
                  (['-', '-', 'a', 'c', 'c', 'o', 'u', 'n', 't'] ++ ' ' ::
                    (ad ++ [' '])))))) := by
    show "ledger convert ".data ++ pd ++
        " --input-date-format \"%Y-%m-%d\" --account ".data ++ ad ++ " ".data = _
    simp [List.append_assoc]
  rw [hdata]
  rw [splitSpaces_sep _ _ (by decide)]
  rw [splitSpaces_sep _ _ (by decide)]
  rw [splitSpaces_sep _ _ hp]
  rw [splitSpaces_sep _ _ (by decide)]
  rw [splitSpaces_sep _ _ (by decide)]
  rw [splitSpaces_sep _ _ (by decide)]
  rfl

/-- C4: evaluation of the argument vector `convert_csv` actually executes
for a space-free path and account.  It is not the vector the claim states:
the date-format argument carries literal double quotes (`"%Y-%m-%d"`, with
the quote characters included, since no shell ever strips them), and a
trailing empty argument is passed (the command string ends in a space and
`str.split(' ')` keeps the final empty chunk). -/
theorem c4_argv_actual (p a : String) (hp : ' ' ∉ p.data) (ha : ' ' ∉ a.data) :
    convert_argv p a
      = ["ledger", "convert", p, "--input-date-format", "\"%Y-%m-%d\"", "--account", a, ""] := by
  obtain ⟨ad⟩ := a
  rw [convert_argv_eq p (String.mk ad) hp]
  rw [show (String.mk ad).data ++ [' '] = ad ++ ' ' :: [] from rfl]
  rw [splitSpaces_sep ad [] ha]
  rfl

/-- C4 witness: the vector at a concrete path and account. -/
theorem c4_argv_actual_witness :
    (' ' ∉ "/tmp/ledger-x.csv".data) ∧
    convert_argv "/tmp/ledger-x.csv" "Assets"
      = ["ledger", "convert", "/tmp/ledger-x.csv", "--input-date-format",
         "\"%Y-%m-%d\"", "--account", "Assets", ""] :=
  ⟨by decide, c4_argv_actual "/tmp/ledger-x.csv" "Assets" (by decide) (by decide)⟩

/-- C9: for an account name containing a space (and a space-free temporary
path), the naive whitespace split tokenizes the account portion into at
least two chunks, and the executed argument vector is the six fixed tokens
followed by those chunks and the trailing empty argument: the account name
reaches the external process as multiple separate arguments, not one. -/
theorem c9_account_split (p a : String) (hp : ' ' ∉ p.data) (ha : ' ' ∈ a.data) :
    2 ≤ (splitSpaces a.data).length ∧
    convert_argv p a
      = ["ledger", "convert", p, "--input-date-format", "\"%Y-%m-%d\"", "--account"]
        ++ ((splitSpaces a.data).map String.mk ++ [""]) := by
  constructor
  · exact splitSpaces_length_ge_two a.data ha
  · rw [convert_argv_eq p a hp, splitSpaces_trailing]
    simp

/-- C9 witness: an account name with a space at a concrete path. -/
theorem c9_account_split_witness :
    (' ' ∈ "Assets:Ally Savings".data) ∧
    (2 ≤ (splitSpaces "Assets:Ally Savings".data).length ∧
      convert_argv "/tmp/ledger-x.csv" "Assets:Ally Savings"
        = ["ledger", "convert", "/tmp/ledger-x.csv", "--input-date-format",
           "\"%Y-%m-%d\"", "--account"]
          ++ ((splitSpaces "Assets:Ally Savings".data).map String.mk ++ [""])) :=
  ⟨by decide,
   c9_account_split "/tmp/ledger-x.csv" "Assets:Ally Savings" (by decide) (by decide)⟩

/-! Theorems about the straight-line `main` pipeline. -/

/-- C6: whenever any stage of the run fails (input unreadable, temporary
directory unwritable, external process nonzero, destination unwritable),
the destination output file is untouched: it is opened and written only
after the external process has succeeded, so a failed run never produces a
truncated or incorrect output file. -/
theorem c6_no_output_on_failure (w : World) (account : String) (e : Err)
    (h : (mainRun w account).2 = Except.error e) :
    (mainRun w account).1.outputFile = w.outputFile := by
  cases hin : w.inputFile with
  | none => simp [mainRun, hin]
  | some rows =>
    by_cases ht : w.tempWritable = true
    · cases hled : w.ledger (convert_argv w.tempPath account) with
      | error code => simp [mainRun, hin, ht, hled]
      | ok out =>
        by_cases ho : w.outputWritable = true
        · exfalso
          simp [mainRun, hin, ht, hled, ho] at h
        · simp [mainRun, hin, ht, hled, ho]
    · simp [mainRun, hin, ht]

/-- C6 witness: a world whose input file cannot be opened; the run fails
and the destination file stays unwritten. -/
def w0 : World :=
  { inputFile := none, tempWritable := true, tempPath := "/tmp/ledger-w0.csv",
    ledger := fun _ => Except.ok "out", outputWritable := true,
    tempFile := none, outputFile := none, ledgerCalls := [] }

/-- C6 witness: at `w0` the run fails with the input filesystem error and
`outputFile` is unchanged. -/
theorem c6_witness :
    (mainRun w0 "Assets").2 = Except.error Err.fsInput ∧
    (mainRun w0 "Assets").1.outputFile = w0.outputFile :=
  ⟨rfl, c6_no_output_on_failure w0 "Assets" Err.fsInput rfl⟩

/-- C7: when the external process exits with a nonzero status, the
`check=True` of `subprocess.run` raises `CalledProcessError`; the run
aborts with exactly that error (nothing catches it) and the captured
standard output is not persisted: the destination file is untouched. -/
theorem c7_nonzero_exit_aborts (w : World) (account : String)
    (rows : List (List String)) (code : Nat)
    (hin : w.inputFile = some rows) (ht : w.tempWritable = true)
    (hled : w.ledger (convert_argv w.tempPath account) = Except.error code) :
    (mainRun w account).2 = Except.error (Err.procFail code) ∧
    (mainRun w account).1.outputFile = w.outputFile := by
  simp [mainRun, hin, ht, hled]

/-- C7 witness: a world whose external process fails with exit code 2. -/
def w1 : World :=
  { inputFile := some [["date", "time", "amount", "type", "description"],
                       ["2024-01-02", "10:00", "-50.00", "Withdrawal", "ATM"]],
    tempWritable := true, tempPath := "/tmp/ledger-w1.csv",
    ledger := fun _ => Except.error 2, outputWritable := true,
    tempFile := none, outputFile := none, ledgerCalls := [] }

/-- C7 witness: at `w1` the run aborts with the process error and the
destination file stays unwritten. -/
theorem c7_witness :
    w1.tempWritable = true ∧
    ((mainRun w1 "Assets").2 = Except.error (Err.procFail 2) ∧
      (mainRun w1 "Assets").1.outputFile = w1.outputFile) :=
  ⟨rfl,
   c7_nonzero_exit_aborts w1 "Assets"
     [["date", "time", "amount", "type", "description"],
      ["2024-01-02", "10:00", "-50.00", "Withdrawal", "ATM"]]
     2 rfl rfl rfl⟩

/-- C8: for an input file holding only a header row, the Input Reader
returns the empty sequence, the temporary file written consists of the
header line alone (zero data rows), and the external tool is still invoked
once on it. -/
theorem c8_header_only (w : World) (account : String) (header : List String)
    (hin : w.inputFile = some [header]) (ht : w.tempWritable = true) :
    read_input_csv [header] = [] ∧
    (mainRun w account).1.tempFile = some [serializeRow output_fieldnames] ∧
    (mainRun w account).1.ledgerCalls
      = w.ledgerCalls ++ [convert_argv w.tempPath account] := by
  have hread : read_input_csv [header] = [] := by
    simp only [read_input_csv, List.filter_cons, List.filter_nil]
    by_cases hh : (!header.isEmpty) = true <;> simp [hh]
  refine ⟨hread, ?_, ?_⟩
  · cases hled : w.ledger (convert_argv w.tempPath account) with
    | error code => simp [mainRun, hin, ht, hled, hread, write_output_csv]
    | ok out =>
      by_cases ho : w.outputWritable = true <;>
        simp [mainRun, hin, ht, hled, ho, hread, write_output_csv]
  · cases hled : w.ledger (convert_argv w.tempPath account) with
    | error code => simp [mainRun, hin, ht, hled]
    | ok out =>
      by_cases ho : w.outputWritable = true <;>
        simp [mainRun, hin, ht, hled, ho]

/-- C8 witness: a world whose input file is a lone header row and whose
external process succeeds. -/
def w2 : World :=
  { inputFile := some [["date", "time", "amount", "type", "description"]],
    tempWritable := true, tempPath := "/tmp/ledger-w2.csv",
    ledger := fun _ => Except.ok "out", outputWritable := true,
    tempFile := none, outputFile := none, ledgerCalls := [] }

/-- C8 witness: at `w2` the reader yields no records, the temporary file is
header-only, and the ledger process is invoked once. -/
theorem c8_witness :
    w2.tempWritable = true ∧
    (read_input_csv [["date", "time", "amount", "type", "description"]] = [] ∧
      (mainRun w2 "Assets").1.tempFile = some [serializeRow output_fieldnames] ∧
      (mainRun w2 "Assets").1.ledgerCalls
        = w2.ledgerCalls ++ [convert_argv w2.tempPath "Assets"]) :=
  ⟨rfl,
   c8_header_only w2 "Assets" ["date", "time", "amount", "type", "description"] rfl rfl⟩
